import Mathlib

/-!
# Verification of the r3d frame-orchestration core

Shallow embedding of the per-frame pipeline of the r3d renderer
(`src/r3d_core.c`, `src/r3d_state.c`, `src/details/r3d_drawcall.c`) and proofs
about its draw-call batching, culling, sorting, forward light filtering,
shadow cadence, stencil effect IDs, bloom mip-chain sizing and
post-processing gating.

Modelling conventions:
* C `float` values are modelled as exact rationals (`ℚ`); the properties
  verified here are order/equality properties of the computed expressions,
  not rounding behaviour.
* GPU calls (`gl*`, `rl*`, shader uniform uploads) are modelled by their
  observable effect on the state the claims talk about (e.g. the per-slot
  light-uniform bank of the forward shader).
* Growable `r3d_array_t` containers are modelled as Lean lists.
-/

namespace R3DSpec

/-- raylib `Vector3`, components as exact rationals. -/
structure Vector3 where
  x : ℚ
  y : ℚ
  z : ℚ
deriving DecidableEq, Repr

/-- raylib `BoundingBox`: axis-aligned box given by two corners. -/
structure BoundingBox where
  bmin : Vector3
  bmax : Vector3
deriving DecidableEq, Repr

/-- raylib 4x4 `Matrix` (column-major naming as in raylib: `m12 m13 m14` is
the translation column). Only the fields the verified code reads are listed;
the remaining entries of the struct are never inspected by the claims. -/
structure Matrix where
  m0 : ℚ
  m1 : ℚ
  m2 : ℚ
  m4 : ℚ
  m5 : ℚ
  m6 : ℚ
  m12 : ℚ
  m13 : ℚ
  m14 : ℚ
deriving DecidableEq, Repr

/-- raylib `Vector3DistanceSqr(v1, v2)`: squared euclidean distance. -/
def Vector3DistanceSqr (v1 v2 : Vector3) : ℚ :=
  (v2.x - v1.x) * (v2.x - v1.x) + (v2.y - v1.y) * (v2.y - v1.y) +
    (v2.z - v1.z) * (v2.z - v1.z)

/-- raylib `CheckCollisionBoxes(box1, box2)`: AABB overlap test
(closed intervals on each axis). -/
def CheckCollisionBoxes (box1 box2 : BoundingBox) : Bool :=
  (box1.bmax.x ≥ box2.bmin.x && box1.bmin.x ≤ box2.bmax.x) &&
  (box1.bmax.y ≥ box2.bmin.y && box1.bmin.y ≤ box2.bmax.y) &&
  (box1.bmax.z ≥ box2.bmin.z && box1.bmin.z ≤ box2.bmax.z)

/-! ## Enumerations (from `r3d.h` usages in `r3d_core.c` / `r3d_drawcall.c`) -/

/-- `R3D_BlendMode`. -/
inductive R3D_BlendMode
  | blendOpaque
  | alpha
  | additive
  | multiply
deriving DecidableEq, Repr

/-- `R3D_ShadowCastMode`. -/
inductive R3D_ShadowCastMode
  | disabled
  | allFaces
  | frontFaces
  | backFaces
deriving DecidableEq, Repr

/-- `R3D_BillboardMode`. -/
inductive R3D_BillboardMode
  | disabled
  | front
  | yAxis
deriving DecidableEq, Repr

/-- `R3D_LightType`. -/
inductive R3D_LightType
  | dir
  | spot
  | omni
deriving DecidableEq, Repr

/-- Subset of `R3D_Material` read by the verified code paths: blend mode
(render-mode routing), shadow-cast mode (shadow pass) and billboard mode
(submission-time transform correction). -/
structure R3D_Material where
  blendMode : R3D_BlendMode
  shadowCastMode : R3D_ShadowCastMode
  billboardMode : R3D_BillboardMode
deriving DecidableEq, Repr

/-- Subset of `R3D_Mesh` read by the verified code paths: the object-space
bounding box (used by the forward light filter). -/
structure R3D_Mesh where
  aabb : BoundingBox
deriving DecidableEq, Repr

/-- `r3d_drawcall_t.geometryType` together with the corresponding member of
the `geometry` union: a model (mesh) draw, or a sprite draw carrying the 4
precomputed world-space quad corners. -/
inductive r3d_drawcall_geometry
  | model (mesh : R3D_Mesh)
  | sprite (quad : List Vector3)
deriving DecidableEq, Repr

/-- `r3d_drawcall_t.renderMode`. -/
inductive r3d_drawcall_render_mode
  | deferred
  | forward
deriving DecidableEq, Repr

/-- `r3d_drawcall_t.instanced` data read by the verified code paths:
the aggregate AABB and the instance count. -/
structure r3d_drawcall_instanced where
  allAabb : BoundingBox
  count : Int
deriving DecidableEq, Repr

/-- `r3d_drawcall_t`: one queued render submission. -/
structure r3d_drawcall_t where
  transform : Matrix
  material : R3D_Material
  geometry : r3d_drawcall_geometry
  renderMode : r3d_drawcall_render_mode
  instanced : Option r3d_drawcall_instanced
deriving DecidableEq, Repr

/-- The four per-frame draw-call arrays of `R3D.container`. -/
structure DrawContainers where
  aDrawDeferred : List r3d_drawcall_t
  aDrawForward : List r3d_drawcall_t
  aDrawDeferredInst : List r3d_drawcall_t
  aDrawForwardInst : List r3d_drawcall_t
deriving DecidableEq, Repr

/-- The feature-flag bits of `R3D.state.flags` read by the verified code. -/
structure R3D_Flags where
  forceForward : Bool
  sortOpaque : Bool
  transparentSorting : Bool
  fxaa : Bool
deriving DecidableEq, Repr

/-! ## C8: stencil effect IDs of the deferred lighting pass
(`r3d_core.c`, `r3d_pass_deferred_lights`, lines 1414-1420, and the stencil
masks of `r3d_state.h`, lines 35-38). -/

/-- `R3D_STENCIL_EFFECT_MASK` (bits 0-6 of the stencil byte). -/
def R3D_STENCIL_EFFECT_MASK : ℕ := 0x7F

/-- The effect ID computed in `r3d_pass_deferred_lights` for the `i`-th
visible light: `uint8_t lightEffectID = (i + 1) % 127;` followed by
`if (lightEffectID == 0) lightEffectID = 1;`. -/
def lightEffectID (i : ℕ) : ℕ :=
  let e := (i + 1) % 127
  if e = 0 then 1 else e

/-- C8: for every light-batch index `i`, the stencil effect ID lies in the
7-bit range `1..127` (in particular it is never `0`, so it cannot collide
with the no-effect stencil value), and the IDs wrap around with period 127,
staying within the effect mask. -/
theorem lightEffectID_in_range_and_wraps (i : ℕ) :
    1 ≤ lightEffectID i ∧ lightEffectID i ≤ 127 ∧ lightEffectID i ≠ 0 ∧
      lightEffectID i ≤ R3D_STENCIL_EFFECT_MASK ∧
      lightEffectID (i + 127) = lightEffectID i := by
  have hlt : (i + 1) % 127 < 127 := Nat.mod_lt _ (by norm_num)
  have hper : (i + 127 + 1) % 127 = (i + 1) % 127 := by
    have : i + 127 + 1 = i + 1 + 127 := by ring
    rw [this, Nat.add_mod_right]
  unfold lightEffectID R3D_STENCIL_EFFECT_MASK
  refine ⟨?_, ?_, ?_, ?_, ?_⟩ <;> simp only [hper] <;> split <;> omega

/-! ## C10: post-processing gating in `R3D_End`
(`r3d_core.c`, lines 384-402). -/

/-- `R3D_Bloom` mode. -/
inductive R3D_Bloom
  | disabled
  | mix
  | additive
  | screen
deriving DecidableEq, Repr

/-- `R3D_Fog` mode. -/
inductive R3D_Fog
  | disabled
  | linear
  | exp2
  | exp
deriving DecidableEq, Repr

/-- `R3D_Tonemap` mode. -/
inductive R3D_Tonemap
  | linear
  | reinhard
  | filmic
  | aces
  | agx
deriving DecidableEq, Repr

/-- The fields of `R3D.env` read by the post-processing dispatch in
`R3D_End`. -/
structure R3D_EnvPost where
  bloomMode : R3D_Bloom
  fogMode : R3D_Fog
  tonemapMode : R3D_Tonemap
  tonemapExposure : ℚ
  tonemapWhite : ℚ
deriving DecidableEq, Repr

/-- Labels for the post-processing passes dispatched at the end of
`R3D_End`. -/
inductive PostPass
  | bloom
  | fog
  | tonemap
  | adjustment
  | fxaa
  | finalBlit
deriving DecidableEq, Repr

/-- The sequence of post-processing passes executed by `R3D_End`
(`r3d_core.c` lines 384-402): bloom if `bloomMode != DISABLED`, fog if
`fogMode != DISABLED`, tonemap if
`tonemapMode != R3D_TONEMAP_LINEAR || tonemapExposure != 1.0f`, the
brightness/contrast/saturation adjustment unconditionally, FXAA if the flag
is set, then the final blit. -/
def R3D_End_post_passes (env : R3D_EnvPost) (flags : R3D_Flags) : List PostPass :=
  (if env.bloomMode ≠ R3D_Bloom.disabled then [PostPass.bloom] else []) ++
  (if env.fogMode ≠ R3D_Fog.disabled then [PostPass.fog] else []) ++
  (if env.tonemapMode ≠ R3D_Tonemap.linear ∨ env.tonemapExposure ≠ 1 then
    [PostPass.tonemap] else []) ++
  [PostPass.adjustment] ++
  (if flags.fxaa then [PostPass.fxaa] else []) ++
  [PostPass.finalBlit]

/-- C10: the tonemap pass runs exactly when the tonemap mode differs from
Linear or the exposure differs from 1; the executed pass list does not
depend on the tonemap white point, so changing only the white point never
triggers the pass; and the adjustment pass runs on every frame. -/
theorem tonemap_gating (env : R3D_EnvPost) (flags : R3D_Flags) :
    (PostPass.tonemap ∈ R3D_End_post_passes env flags ↔
      (env.tonemapMode ≠ R3D_Tonemap.linear ∨ env.tonemapExposure ≠ 1)) ∧
    PostPass.adjustment ∈ R3D_End_post_passes env flags ∧
    (∀ w : ℚ, R3D_End_post_passes { env with tonemapWhite := w } flags =
      R3D_End_post_passes env flags) := by
  refine ⟨?_, ?_, fun w => rfl⟩
  · unfold R3D_End_post_passes
    split <;> simp_all
  · unfold R3D_End_post_passes
    split <;> split <;> split <;> split <;> simp

end R3DSpec

namespace R3DSpec

/-! ## C1 / C2: the forward-pass per-draw light filter and uniform upload
(`r3d_core.c`, `r3d_pass_scene_forward_filter_and_send_lights`,
lines 1618-1704, and the instanced variant, lines 1706-1773). -/

/-- `r3d_light_batched_t`: a visible light of the frame's light batch,
paired with its world-space bounding box. Only the fields read by the
forward filter are listed (the full light data uploaded to the uniform
slots is represented by the batched record itself). -/
structure r3d_light_batched_t where
  lightType : R3D_LightType
  aabb : BoundingBox
deriving DecidableEq, Repr

/-- The per-corner point-in-AABB test of the sprite branch
(`r3d_core.c` lines 1639-1641):
`quad[j].x >= aabb->min.x && quad[j].x <= aabb->max.x && ...` on all three
axes. -/
def spriteCornerInAabb (q : Vector3) (aabb : BoundingBox) : Bool :=
  q.x ≥ aabb.bmin.x && q.x ≤ aabb.bmax.x &&
  q.y ≥ aabb.bmin.y && q.y ≤ aabb.bmax.y &&
  q.z ≥ aabb.bmin.z && q.z ≤ aabb.bmax.z

/-- The geometry check of `r3d_pass_scene_forward_filter_and_send_lights`
(`r3d_core.c` lines 1626-1650): returns `true` when the loop body proceeds
past the check (the light is included in the draw's light set), `false`
when the body executes `continue` (the light is skipped).

Directional lights skip the check entirely. For model geometry the light is
skipped iff `CheckCollisionBoxes(light->aabb, mesh->aabb)` fails. For
sprite geometry the code computes `inside` = some quad corner lies in the
light's AABB, and then executes `continue` when `inside` holds
(`if (inside) { continue; }`, lines 1646-1648) — i.e. it skips the light
exactly when a corner is inside. -/
def r3d_forward_light_passes_filter (call : r3d_drawcall_t)
    (light : r3d_light_batched_t) : Bool :=
  if light.lightType ≠ R3D_LightType.dir then
    match call.geometry with
    | r3d_drawcall_geometry.model mesh =>
        if ¬ CheckCollisionBoxes light.aabb mesh.aabb then false else true
    | r3d_drawcall_geometry.sprite quad =>
        if quad.any (fun q => spriteCornerInAabb q light.aabb) then false else true
  else true

/-- The geometry check of the instanced variant
(`r3d_core.c` lines 1714-1719): non-directional lights are skipped iff
`CheckCollisionBoxes(light->aabb, call->instanced.allAabb)` fails
(a missing `instanced` record never occurs for instanced draws; it is
treated as "skip"). -/
def r3d_forward_inst_light_passes_filter (call : r3d_drawcall_t)
    (light : r3d_light_batched_t) : Bool :=
  if light.lightType ≠ R3D_LightType.dir then
    match call.instanced with
    | some inst => if ¬ CheckCollisionBoxes light.aabb inst.allAabb then false else true
    | none => false
  else true

/-- Observable state of one `uLights[j]` uniform slot of the forward
shader: the `enabled` flag last uploaded, and the light whose data was last
uploaded into the slot's data uniforms (`none` if never written). -/
structure UniformLightSlot where
  enabled : Bool
  lightData : Option r3d_light_batched_t
deriving DecidableEq, Repr

/-- The scan loop of `r3d_pass_scene_forward_filter_and_send_lights`
(`r3d_core.c` lines 1620-1699), abstracted over the geometry check
(`passes`): iterates the light batch while `lightCount < cap` (the
compile-time `R3D_SHADER_FORWARD_NUM_LIGHTS`); for a light at batch index
`i` that passes the check it increments `lightCount` and uploads
`uLights[i].enabled = true` together with the light's data — the uniform
index used is the batch index `i`, as in the source. Returns the slot bank
and the final `lightCount`. -/
def r3d_forward_send_loop (passes : r3d_light_batched_t → Bool) (cap : ℕ) :
    List r3d_light_batched_t → ℕ → ℕ → (ℕ → UniformLightSlot) →
      (ℕ → UniformLightSlot) × ℕ
  | [], _i, lightCount, slots => (slots, lightCount)
  | l :: rest, i, lightCount, slots =>
    if lightCount < cap then
      if passes l then
        r3d_forward_send_loop passes cap rest (i + 1) (lightCount + 1)
          (fun j => if j = i then { enabled := true, lightData := some l } else slots j)
      else
        r3d_forward_send_loop passes cap rest (i + 1) lightCount slots
    else (slots, lightCount)

/-- `r3d_pass_scene_forward_filter_and_send_lights` (`r3d_core.c` lines
1618-1704) as a transformation of the uniform slot bank: run the scan loop,
then `for (i = lightCount; i < cap; i++) uLights[i].enabled = false;`
(lines 1701-1703). -/
def r3d_pass_scene_forward_filter_and_send_lights (call : r3d_drawcall_t)
    (batch : List r3d_light_batched_t) (cap : ℕ)
    (slots : ℕ → UniformLightSlot) : ℕ → UniformLightSlot :=
  let out := r3d_forward_send_loop (r3d_forward_light_passes_filter call) cap batch 0 0 slots
  fun j => if out.2 ≤ j ∧ j < cap then { out.1 j with enabled := false } else out.1 j

/-! ### Concrete scenario used to exercise the two passes -/

/-- An omni light whose AABB `[0,2]³` touches the unit-cube draw below. -/
def omniNearLight : r3d_light_batched_t :=
  { lightType := R3D_LightType.omni,
    aabb := { bmin := ⟨0, 0, 0⟩, bmax := ⟨2, 2, 2⟩ } }

/-- An omni light whose AABB `[10,11]³` touches nothing below. -/
def omniFarLight : r3d_light_batched_t :=
  { lightType := R3D_LightType.omni,
    aabb := { bmin := ⟨10, 10, 10⟩, bmax := ⟨11, 11, 11⟩ } }

/-- A directional light (always passes the geometry check). -/
def dirLight : r3d_light_batched_t :=
  { lightType := R3D_LightType.dir,
    aabb := { bmin := ⟨0, 0, 0⟩, bmax := ⟨0, 0, 0⟩ } }

/-- A neutral material used by the concrete draws. -/
def matOpaque : R3D_Material :=
  { blendMode := R3D_BlendMode.blendOpaque,
    shadowCastMode := R3D_ShadowCastMode.allFaces,
    billboardMode := R3D_BillboardMode.disabled }

/-- The identity transform entries read by the claims. -/
def identityMatrix : Matrix :=
  { m0 := 1, m1 := 0, m2 := 0, m4 := 0, m5 := 1, m6 := 0,
    m12 := 0, m13 := 0, m14 := 0 }

/-- A model draw call whose mesh AABB is the unit cube. -/
def unitCubeDraw : r3d_drawcall_t :=
  { transform := identityMatrix,
    material := matOpaque,
    geometry := r3d_drawcall_geometry.model { aabb := { bmin := ⟨0, 0, 0⟩, bmax := ⟨1, 1, 1⟩ } },
    renderMode := r3d_drawcall_render_mode.forward,
    instanced := none }

/-- A sprite draw call with one quad corner `(1,1,1)` inside
`omniNearLight`'s AABB `[0,2]³` and the other corners far outside it. -/
def spriteDrawWithCornerInside : r3d_drawcall_t :=
  { transform := identityMatrix,
    material := matOpaque,
    geometry := r3d_drawcall_geometry.sprite
      [⟨1, 1, 1⟩, ⟨10, 10, 10⟩, ⟨10, 0, 10⟩, ⟨0, 10, 10⟩],
    renderMode := r3d_drawcall_render_mode.forward,
    instanced := none }

/-- C1 (evaluation of the code at the failing input): the sprite filter of
the forward color pass EXCLUDES a visible non-directional light one of
whose AABBs contains a sprite quad corner — `spriteCornerInAabb` holds for
corner `(1,1,1)` of the sprite against `omniNearLight`'s AABB, yet
`r3d_forward_light_passes_filter` returns `false` (the `continue` branch is
taken), the opposite of the specified inclusion condition (and the opposite
of the model-geometry branch, which includes a light exactly when the boxes
touch). -/
theorem sprite_filter_inverts_corner_test :
    r3d_forward_light_passes_filter spriteDrawWithCornerInside omniNearLight = false ∧
    spriteCornerInAabb ⟨1, 1, 1⟩ omniNearLight.aabb = true ∧
    r3d_forward_light_passes_filter unitCubeDraw omniNearLight = true ∧
    r3d_forward_light_passes_filter spriteDrawWithCornerInside dirLight = true := by
  decide

end R3DSpec

namespace R3DSpec

/-- A fresh slot bank: every slot disabled, nothing uploaded. -/
def freshSlots : ℕ → UniformLightSlot :=
  fun _ => { enabled := false, lightData := none }

/-- Slot bank after a first forward draw (the unit-cube draw) is processed
against a batch holding only `omniNearLight` (which touches the draw):
slot 0 becomes enabled with that light's data. -/
def slotsAfterFirstDraw : ℕ → UniformLightSlot :=
  r3d_pass_scene_forward_filter_and_send_lights unitCubeDraw [omniNearLight] 4 freshSlots

/-- The light batch of the second frame: a far omni light that touches
nothing, followed by a directional light. -/
def secondBatch : List r3d_light_batched_t := [omniFarLight, dirLight]

/-- Slot bank after the next forward draw (same unit-cube draw) is
processed against `secondBatch` starting from `slotsAfterFirstDraw`. -/
def slotsAfterSecondDraw : ℕ → UniformLightSlot :=
  r3d_pass_scene_forward_filter_and_send_lights unitCubeDraw secondBatch 4 slotsAfterFirstDraw

/-- C2 (evaluation of the code at the failing input): after the forward
light filter runs for the second draw, slot 0 is still marked enabled and
holds the data of `omniNearLight` — a light of the PREVIOUS draw's batch
that is not even a member of the current batch — while the one light the
filter did include for this draw (`dirLight`, uploaded at its batch index
1) ends up in a slot explicitly marked disabled by the trailing
`for (i = lightCount; ...)` loop. The upload loop indexes `uLights[i]` by
batch position while the disable loop assumes the included lights are
packed in slots `0..lightCount-1`. -/
theorem stale_uniform_slot_stays_enabled :
    (slotsAfterSecondDraw 0).enabled = true ∧
    (slotsAfterSecondDraw 0).lightData = some omniNearLight ∧
    omniNearLight ∉ secondBatch ∧
    r3d_forward_light_passes_filter unitCubeDraw dirLight = true ∧
    r3d_forward_light_passes_filter unitCubeDraw omniFarLight = false ∧
    (slotsAfterSecondDraw 1).lightData = some dirLight ∧
    (slotsAfterSecondDraw 1).enabled = false := by
  decide

end R3DSpec

namespace R3DSpec

/-! ## C4: render-mode routing of the draw submission calls
(`r3d_core.c`: `R3D_DrawMesh` lines 407-437, `R3D_DrawMeshInstancedPro`
lines 449-486, `R3D_DrawModelPro` lines 505-547, `R3D_DrawSpritePro` lines
559-617, `R3D_DrawSpriteInstancedPro` lines 629-671).

The raylib matrix constructors (`MatrixScale`/`MatrixRotate`/
`MatrixTranslate`/`MatrixMultiply`) and the billboard helpers
(`r3d_transform_to_billboard_front` / `_y`, defined outside the sources
under verification) are opaque external transforms: they are taken as
parameters, since no claim constrains the transform they produce. -/

/-- Exact value of C `FLT_MAX` (the default aggregate AABB of instanced
draws uses `±FLT_MAX`). -/
def FLT_MAX : ℚ := 340282346638528859811704183484516925440

/-- The `±FLT_MAX` default aggregate AABB used when `globalAabb` is NULL. -/
def infiniteAabb : BoundingBox :=
  { bmin := ⟨-FLT_MAX, -FLT_MAX, -FLT_MAX⟩, bmax := ⟨FLT_MAX, FLT_MAX, FLT_MAX⟩ }

/-- The routing condition shared by every submission call
(`material->blendMode != R3D_BLEND_OPAQUE || R3D.state.flags &
R3D_FLAG_FORCE_FORWARD`). -/
def forwardRouted (material : R3D_Material) (flags : R3D_Flags) : Prop :=
  material.blendMode ≠ R3D_BlendMode.blendOpaque ∨ flags.forceForward = true

instance (material : R3D_Material) (flags : R3D_Flags) :
    Decidable (forwardRouted material flags) := by
  unfold forwardRouted; infer_instance

/-- Subset of `R3D_Sprite` read by the verified code paths (the frame-sheet
UV fields are not inspected by any claim). -/
structure R3D_Sprite where
  material : R3D_Material
deriving DecidableEq, Repr

section Submission

variable (toBillboardFront toBillboardY : Matrix → Matrix → Matrix)

/-- The billboard switch executed by the submitters before storing the
transform (`switch (material->billboardMode)`), with the two external
helpers applied to the transform and the cached inverse view. -/
def applyBillboardMode (mode : R3D_BillboardMode) (transform invView : Matrix) :
    Matrix :=
  match mode with
  | R3D_BillboardMode.front => toBillboardFront transform invView
  | R3D_BillboardMode.yAxis => toBillboardY transform invView
  | R3D_BillboardMode.disabled => transform

/-- `R3D_DrawMesh` (lines 407-437): NULL mesh returns without queuing;
otherwise the billboard correction is applied, a draw call with
`renderMode = DEFERRED` is built, and the call is pushed to `aDrawForward`
with `renderMode = FORWARD` when the routing condition holds, else to
`aDrawDeferred`. -/
def R3D_DrawMesh (mesh : Option R3D_Mesh) (material : R3D_Material)
    (transform invView : Matrix) (flags : R3D_Flags)
    (c : DrawContainers) : DrawContainers :=
  match mesh with
  | none => c
  | some m =>
    let t2 := applyBillboardMode toBillboardFront toBillboardY
      material.billboardMode transform invView
    let call : r3d_drawcall_t :=
      { transform := t2, material := material,
        geometry := r3d_drawcall_geometry.model m,
        renderMode := r3d_drawcall_render_mode.deferred,
        instanced := none }
    if forwardRouted material flags then
      { c with aDrawForward := c.aDrawForward ++
          [{ call with renderMode := r3d_drawcall_render_mode.forward }] }
    else
      { c with aDrawDeferred := c.aDrawDeferred ++ [call] }

/-- `R3D_DrawMeshInstancedPro` (lines 449-486): returns without queuing on
NULL mesh, zero instance count or NULL transform array; otherwise builds an
instanced draw call (aggregate AABB defaulting to `±FLT_MAX`) and routes it
to `aDrawForwardInst` / `aDrawDeferredInst` by the same condition. -/
def R3D_DrawMeshInstancedPro (mesh : Option R3D_Mesh) (material : R3D_Material)
    (globalAabb : Option BoundingBox) (globalTransform : Matrix)
    (instanceTransforms : Option (List Matrix)) (instanceCount : Int)
    (flags : R3D_Flags) (c : DrawContainers) : DrawContainers :=
  match mesh, instanceTransforms with
  | some m, some _ts =>
    if instanceCount = 0 then c
    else
      let call : r3d_drawcall_t :=
        { transform := globalTransform, material := material,
          geometry := r3d_drawcall_geometry.model m,
          renderMode := r3d_drawcall_render_mode.deferred,
          instanced := some { allAabb := globalAabb.getD infiniteAabb,
                              count := instanceCount } }
      if forwardRouted material flags then
        { c with aDrawForwardInst := c.aDrawForwardInst ++
            [{ call with renderMode := r3d_drawcall_render_mode.forward }] }
      else
        { c with aDrawDeferredInst := c.aDrawDeferredInst ++ [call] }
  | _, _ => c

/-- `R3D_DrawModelPro` (lines 505-547): iterates the model's sub-meshes
with their materials; per sub-mesh the billboard switch mutates the shared
local `transform` (the mutation persists into later iterations, as in the
source) and the resulting call is routed by the same condition. -/
def R3D_DrawModelPro (meshes : List (R3D_Mesh × R3D_Material))
    (transform invView : Matrix) (flags : R3D_Flags)
    (c : DrawContainers) : DrawContainers :=
  (meshes.foldl (fun acc mm =>
    let t2 := applyBillboardMode toBillboardFront toBillboardY
      mm.2.billboardMode acc.1 invView
    let call : r3d_drawcall_t :=
      { transform := t2, material := mm.2,
        geometry := r3d_drawcall_geometry.model mm.1,
        renderMode := r3d_drawcall_render_mode.deferred,
        instanced := none }
    let c2 :=
      if forwardRouted mm.2 flags then
        { acc.2 with aDrawForward := acc.2.aDrawForward ++
            [{ call with renderMode := r3d_drawcall_render_mode.forward }] }
      else
        { acc.2 with aDrawDeferred := acc.2.aDrawDeferred ++ [call] }
    (t2, c2)) (transform, c)).2

/-- The world-space quad-corner computation of `R3D_DrawSpritePro`
(lines 587-594): half the first two columns of the final transform are the
quad axes and the translation column is the center. -/
def spriteQuadCorners (m : Matrix) : List Vector3 :=
  let ax : Vector3 := ⟨m.m0 * (1/2), m.m1 * (1/2), m.m2 * (1/2)⟩
  let ay : Vector3 := ⟨m.m4 * (1/2), m.m5 * (1/2), m.m6 * (1/2)⟩
  let ce : Vector3 := ⟨m.m12, m.m13, m.m14⟩
  [⟨ce.x - ax.x - ay.x, ce.y - ax.y - ay.y, ce.z - ax.z - ay.z⟩,
   ⟨ce.x + ax.x - ay.x, ce.y + ax.y - ay.y, ce.z + ax.z - ay.z⟩,
   ⟨ce.x + ax.x + ay.x, ce.y + ax.y + ay.y, ce.z + ax.z + ay.z⟩,
   ⟨ce.x - ax.x + ay.x, ce.y - ax.y + ay.y, ce.z - ax.z + ay.z⟩]

variable (spriteBaseTransform : Vector3 → ℚ × ℚ → Vector3 → ℚ → Matrix)

/-- `R3D_DrawSpritePro` (lines 559-617): NULL sprite returns without
queuing; the scale/rotate/translate matrix product (external raylib math,
taken opaque as `spriteBaseTransform`) is billboard-corrected, the 4
world-space quad corners are computed from it, and the sprite call is
routed to `aDrawForward` / `aDrawDeferred` by the same condition applied to
the sprite's material. -/
def R3D_DrawSpritePro (sprite : Option R3D_Sprite) (position : Vector3)
    (size : ℚ × ℚ) (rotationAxis : Vector3) (rotationAngle : ℚ)
    (invView : Matrix) (flags : R3D_Flags)
    (c : DrawContainers) : DrawContainers :=
  match sprite with
  | none => c
  | some sp =>
    let mt := applyBillboardMode toBillboardFront toBillboardY
      sp.material.billboardMode
      (spriteBaseTransform position size rotationAxis rotationAngle) invView
    let call : r3d_drawcall_t :=
      { transform := mt, material := sp.material,
        geometry := r3d_drawcall_geometry.sprite (spriteQuadCorners mt),
        renderMode := r3d_drawcall_render_mode.deferred,
        instanced := none }
    if forwardRouted sp.material flags then
      { c with aDrawForward := c.aDrawForward ++
          [{ call with renderMode := r3d_drawcall_render_mode.forward }] }
    else
      { c with aDrawDeferred := c.aDrawDeferred ++ [call] }

/-- `R3D_DrawSpriteInstancedPro` (lines 629-671): returns without queuing
on NULL sprite, zero instance count or NULL transform array; the quad of
the zero-initialized draw call stays at the origin (instanced sprites carry
no precomputed quad); routing is by the same condition. -/
def R3D_DrawSpriteInstancedPro (sprite : Option R3D_Sprite)
    (globalAabb : Option BoundingBox) (globalTransform : Matrix)
    (instanceTransforms : Option (List Matrix)) (instanceCount : Int)
    (flags : R3D_Flags) (c : DrawContainers) : DrawContainers :=
  match sprite, instanceTransforms with
  | some sp, some _ts =>
    if instanceCount = 0 then c
    else
      let call : r3d_drawcall_t :=
        { transform := globalTransform, material := sp.material,
          geometry := r3d_drawcall_geometry.sprite
            (List.replicate 4 (⟨0, 0, 0⟩ : Vector3)),
          renderMode := r3d_drawcall_render_mode.deferred,
          instanced := some { allAabb := globalAabb.getD infiniteAabb,
                              count := instanceCount } }
      if forwardRouted sp.material flags then
        { c with aDrawForwardInst := c.aDrawForwardInst ++
            [{ call with renderMode := r3d_drawcall_render_mode.forward }] }
      else
        { c with aDrawDeferredInst := c.aDrawDeferredInst ++ [call] }
  | _, _ => c

end Submission

/-- "Exactly one draw was appended, to the forward array, with
`renderMode = FORWARD`; the other three arrays are untouched." -/
def routesForwardOnly (c c' : DrawContainers) : Prop :=
  (∃ d : r3d_drawcall_t, d.renderMode = r3d_drawcall_render_mode.forward ∧
    c'.aDrawForward = c.aDrawForward ++ [d]) ∧
  c'.aDrawDeferred = c.aDrawDeferred ∧
  c'.aDrawDeferredInst = c.aDrawDeferredInst ∧
  c'.aDrawForwardInst = c.aDrawForwardInst

/-- "Exactly one draw was appended, to the deferred array, with
`renderMode = DEFERRED`; the other three arrays are untouched." -/
def routesDeferredOnly (c c' : DrawContainers) : Prop :=
  (∃ d : r3d_drawcall_t, d.renderMode = r3d_drawcall_render_mode.deferred ∧
    c'.aDrawDeferred = c.aDrawDeferred ++ [d]) ∧
  c'.aDrawForward = c.aDrawForward ∧
  c'.aDrawDeferredInst = c.aDrawDeferredInst ∧
  c'.aDrawForwardInst = c.aDrawForwardInst

/-- "Exactly one draw was appended, to the forward-instanced array, with
`renderMode = FORWARD`; the other three arrays are untouched." -/
def routesForwardInstOnly (c c' : DrawContainers) : Prop :=
  (∃ d : r3d_drawcall_t, d.renderMode = r3d_drawcall_render_mode.forward ∧
    c'.aDrawForwardInst = c.aDrawForwardInst ++ [d]) ∧
  c'.aDrawDeferred = c.aDrawDeferred ∧
  c'.aDrawForward = c.aDrawForward ∧
  c'.aDrawDeferredInst = c.aDrawDeferredInst

/-- "Exactly one draw was appended, to the deferred-instanced array, with
`renderMode = DEFERRED`; the other three arrays are untouched." -/
def routesDeferredInstOnly (c c' : DrawContainers) : Prop :=
  (∃ d : r3d_drawcall_t, d.renderMode = r3d_drawcall_render_mode.deferred ∧
    c'.aDrawDeferredInst = c.aDrawDeferredInst ++ [d]) ∧
  c'.aDrawDeferred = c.aDrawDeferred ∧
  c'.aDrawForward = c.aDrawForward ∧
  c'.aDrawForwardInst = c.aDrawForwardInst

end R3DSpec

namespace R3DSpec

/-- C4: every submission call that queues a draw appends it to exactly one
of the four per-frame arrays, and the choice depends solely on the condition
`material.blendMode != OPAQUE || forceForward`: when it holds the draw goes
to the forward (resp. forward-instanced) array with `renderMode = FORWARD`,
otherwise to the deferred (resp. deferred-instanced) array with
`renderMode = DEFERRED`; this covers `R3D_DrawMesh`,
`R3D_DrawMeshInstancedPro`, a sub-mesh queued by `R3D_DrawModelPro`,
`R3D_DrawSpritePro` and `R3D_DrawSpriteInstancedPro`. -/
theorem draw_submission_partition
    (bbF bbY : Matrix → Matrix → Matrix)
    (sbt : Vector3 → ℚ × ℚ → Vector3 → ℚ → Matrix)
    (m : R3D_Mesh) (mat : R3D_Material) (sp : R3D_Sprite)
    (gA : Option BoundingBox) (ts : List Matrix) (n : Int) (hn : n ≠ 0)
    (t invView gt : Matrix) (pos axis : Vector3) (size : ℚ × ℚ) (ang : ℚ)
    (flags : R3D_Flags) (c : DrawContainers) :
    (forwardRouted mat flags →
      routesForwardOnly c (R3D_DrawMesh bbF bbY (some m) mat t invView flags c) ∧
      routesForwardInstOnly c
        (R3D_DrawMeshInstancedPro (some m) mat gA gt (some ts) n flags c) ∧
      routesForwardOnly c (R3D_DrawModelPro bbF bbY [(m, mat)] t invView flags c)) ∧
    (¬ forwardRouted mat flags →
      routesDeferredOnly c (R3D_DrawMesh bbF bbY (some m) mat t invView flags c) ∧
      routesDeferredInstOnly c
        (R3D_DrawMeshInstancedPro (some m) mat gA gt (some ts) n flags c) ∧
      routesDeferredOnly c (R3D_DrawModelPro bbF bbY [(m, mat)] t invView flags c)) ∧
    (forwardRouted sp.material flags →
      routesForwardOnly c
        (R3D_DrawSpritePro bbF bbY sbt (some sp) pos size axis ang invView flags c) ∧
      routesForwardInstOnly c
        (R3D_DrawSpriteInstancedPro (some sp) gA gt (some ts) n flags c)) ∧
    (¬ forwardRouted sp.material flags →
      routesDeferredOnly c
        (R3D_DrawSpritePro bbF bbY sbt (some sp) pos size axis ang invView flags c) ∧
      routesDeferredInstOnly c
        (R3D_DrawSpriteInstancedPro (some sp) gA gt (some ts) n flags c)) := by
  refine ⟨fun h => ⟨?_, ?_, ?_⟩, fun h => ⟨?_, ?_, ?_⟩,
          fun h => ⟨?_, ?_⟩, fun h => ⟨?_, ?_⟩⟩
  · unfold R3D_DrawMesh
    dsimp only
    rw [if_pos h]
    exact ⟨⟨_, rfl, rfl⟩, rfl, rfl, rfl⟩
  · unfold R3D_DrawMeshInstancedPro
    dsimp only
    rw [if_neg hn, if_pos h]
    exact ⟨⟨_, rfl, rfl⟩, rfl, rfl, rfl⟩
  · unfold R3D_DrawModelPro
    dsimp only
    simp only [List.foldl_cons, List.foldl_nil]
    rw [if_pos h]
    exact ⟨⟨_, rfl, rfl⟩, rfl, rfl, rfl⟩
  · unfold R3D_DrawMesh
    dsimp only
    rw [if_neg h]
    exact ⟨⟨_, rfl, rfl⟩, rfl, rfl, rfl⟩
  · unfold R3D_DrawMeshInstancedPro
    dsimp only
    rw [if_neg hn, if_neg h]
    exact ⟨⟨_, rfl, rfl⟩, rfl, rfl, rfl⟩
  · unfold R3D_DrawModelPro
    dsimp only
    simp only [List.foldl_cons, List.foldl_nil]
    rw [if_neg h]
    exact ⟨⟨_, rfl, rfl⟩, rfl, rfl, rfl⟩
  · unfold R3D_DrawSpritePro
    dsimp only
    rw [if_pos h]
    exact ⟨⟨_, rfl, rfl⟩, rfl, rfl, rfl⟩
  · unfold R3D_DrawSpriteInstancedPro
    dsimp only
    rw [if_neg hn, if_pos h]
    exact ⟨⟨_, rfl, rfl⟩, rfl, rfl, rfl⟩
  · unfold R3D_DrawSpritePro
    dsimp only
    rw [if_neg h]
    exact ⟨⟨_, rfl, rfl⟩, rfl, rfl, rfl⟩
  · unfold R3D_DrawSpriteInstancedPro
    dsimp only
    rw [if_neg hn, if_neg h]
    exact ⟨⟨_, rfl, rfl⟩, rfl, rfl, rfl⟩

end R3DSpec

namespace R3DSpec

/-- A mesh whose AABB is the unit cube (shared concrete input). -/
def cubeMesh : R3D_Mesh :=
  { aabb := { bmin := ⟨0, 0, 0⟩, bmax := ⟨1, 1, 1⟩ } }

/-- An alpha-blended material (routes forward). -/
def alphaMaterial : R3D_Material :=
  { blendMode := R3D_BlendMode.alpha,
    shadowCastMode := R3D_ShadowCastMode.allFaces,
    billboardMode := R3D_BillboardMode.disabled }

/-- All feature flags cleared. -/
def noFlags : R3D_Flags :=
  { forceForward := false, sortOpaque := false,
    transparentSorting := false, fxaa := false }

/-- Empty per-frame draw-call arrays (state right after `R3D_Begin`). -/
def emptyContainers : DrawContainers :=
  { aDrawDeferred := [], aDrawForward := [],
    aDrawDeferredInst := [], aDrawForwardInst := [] }

/-- Witness for `draw_submission_partition`: at concrete inputs, an
alpha-blended mesh draw lands only in the forward array and an opaque mesh
draw only in the deferred array. -/
theorem draw_submission_partition_witness :
    routesForwardOnly emptyContainers
      (R3D_DrawMesh (fun t _ => t) (fun t _ => t) (some cubeMesh) alphaMaterial
        identityMatrix identityMatrix noFlags emptyContainers) ∧
    routesDeferredOnly emptyContainers
      (R3D_DrawMesh (fun t _ => t) (fun t _ => t) (some cubeMesh) matOpaque
        identityMatrix identityMatrix noFlags emptyContainers) :=
  ⟨((draw_submission_partition (fun t _ => t) (fun t _ => t)
      (fun _ _ _ _ => identityMatrix) cubeMesh alphaMaterial
      { material := alphaMaterial } none [] 1 (by decide) identityMatrix
      identityMatrix identityMatrix ⟨0, 0, 0⟩ ⟨0, 0, 0⟩ (0, 0) 0 noFlags
      emptyContainers).1 (Or.inl (by decide))).1,
   ((draw_submission_partition (fun t _ => t) (fun t _ => t)
      (fun _ _ _ _ => identityMatrix) cubeMesh matOpaque
      { material := matOpaque } none [] 1 (by decide) identityMatrix
      identityMatrix identityMatrix ⟨0, 0, 0⟩ ⟨0, 0, 0⟩ (0, 0) 0 noFlags
      emptyContainers).2.1 (by decide)).1⟩

end R3DSpec

namespace R3DSpec

/-! ## C3: swap-remove frustum culling of the draw arrays
(`r3d_core.c`, `r3d_prepare_cull_drawcalls`, lines 820-876).

Each of the four arrays is processed by the same loop
`for (i = count - 1; i >= 0; i--) if (!visible(calls[i])) calls[i] = calls[--count];`
— an invisible entry at index `i` is overwritten by the last live entry and
the live count decremented. The visibility predicates
(`r3d_drawcall_geometry_is_visible`, `r3d_drawcall_instanced_geometry_is_visible`)
live in the frustum module outside the sources under verification and are
taken as opaque boolean predicates; the claim is about the loop itself. -/

/-- One array's culling loop, indices processed from `i - 1` down to `0`
over the list `arr` with live count `cnt`; `d` is the (never used under the
in-range precondition) default of the array read. Returns the final backing
list and live count. -/
def r3d_cull_swap_remove_loop {α : Type} (visible : α → Bool) (d : α) :
    ℕ → List α → ℕ → List α × ℕ
  | 0, arr, cnt => (arr, cnt)
  | i + 1, arr, cnt =>
    if visible (arr.getD i d) then
      r3d_cull_swap_remove_loop visible d i arr cnt
    else
      r3d_cull_swap_remove_loop visible d i (arr.set i (arr.getD (cnt - 1) d)) (cnt - 1)

/-- The surviving entries of one array after the culling loop: the first
`count` entries of the backing store, starting from `i = count - 1`. -/
def r3d_cull_swap_remove {α : Type} (visible : α → Bool) (d : α) (arr : List α) :
    List α :=
  ((r3d_cull_swap_remove_loop visible d arr.length arr arr.length).1).take
    (r3d_cull_swap_remove_loop visible d arr.length arr arr.length).2

/-- Loop invariant of the swap-remove cull: with indices below `i` still to
be processed, the final live prefix is a permutation of the visible entries
below `i` together with the (already checked) entries from `i` up to the
live count. -/
theorem r3d_cull_swap_remove_loop_perm {α : Type} (visible : α → Bool) (d : α) :
    ∀ (i : ℕ) (arr : List α) (cnt : ℕ), i ≤ cnt → cnt ≤ arr.length →
      ((r3d_cull_swap_remove_loop visible d i arr cnt).1.take
        (r3d_cull_swap_remove_loop visible d i arr cnt).2).Perm
        (((arr.take i).filter visible) ++ ((arr.take cnt).drop i))
  | 0, arr, cnt, _, _ => by
    simp [r3d_cull_swap_remove_loop]
  | i + 1, arr, cnt, hic, hcl => by
    have hi_lt_cnt : i < cnt := hic
    have hi_lt_len : i < arr.length := lt_of_lt_of_le hi_lt_cnt hcl
    have hgetD : arr.getD i d = arr[i] := List.getD_eq_getElem arr d hi_lt_len
    simp only [r3d_cull_swap_remove_loop]
    by_cases hv : visible (arr.getD i d) = true
    · rw [if_pos hv]
      have ih := r3d_cull_swap_remove_loop_perm visible d i arr cnt
        (Nat.le_of_lt hi_lt_cnt) hcl
      have hfil : (arr.take (i + 1)).filter visible =
          (arr.take i).filter visible ++ [arr[i]] := by
        rw [List.take_succ, List.getElem?_eq_getElem hi_lt_len]
        rw [hgetD] at hv
        rw [List.filter_append]
        congr 1
        simp [hv]
      have hlen : i < (arr.take cnt).length := by
        simpa [List.length_take, Nat.min_eq_left hcl] using hi_lt_cnt
      have hdrop : (arr.take cnt).drop i = arr[i] :: (arr.take cnt).drop (i + 1) := by
        rw [List.drop_eq_getElem_cons hlen, List.getElem_take]
      rw [hdrop] at ih
      rw [hfil]
      simpa [List.append_assoc] using ih
    · rw [if_neg hv]
      have hcnt1_lt : cnt - 1 < arr.length := by omega
      have hyget : arr.getD (cnt - 1) d = arr[cnt - 1] :=
        List.getD_eq_getElem arr d hcnt1_lt
      have ih := r3d_cull_swap_remove_loop_perm visible d i
        (arr.set i (arr.getD (cnt - 1) d)) (cnt - 1)
        (by omega) (by rw [List.length_set]; omega)
      have hset_take_i : (arr.set i (arr.getD (cnt - 1) d)).take i = arr.take i := by
        rw [List.set_take]
        exact List.set_eq_of_length_le (by simp [List.length_take])
      have hfil : (arr.take (i + 1)).filter visible = (arr.take i).filter visible := by
        rw [List.take_succ, List.getElem?_eq_getElem hi_lt_len]
        rw [hgetD] at hv
        rw [List.filter_append]
        simp [hv]
      rw [hset_take_i] at ih
      rw [hfil]
      rcases Nat.lt_or_ge i (cnt - 1) with hlt | hge
      · -- the removed entry is not the last live one: the last live entry moves down
        have hAlen : (arr.take (cnt - 1)).length = cnt - 1 := by
          simp [List.length_take]; omega
        have hsetdrop : ((arr.set i (arr.getD (cnt - 1) d)).take (cnt - 1)).drop i =
            arr[cnt - 1] :: (arr.take (cnt - 1)).drop (i + 1) := by
          rw [List.set_take, List.drop_set]
          rw [if_neg (by omega)]
          have hlen2 : i < (arr.take (cnt - 1)).length := by omega
          rw [List.drop_eq_getElem_cons hlen2]
          simp [Nat.sub_self, List.getD, List.getElem?_eq_getElem hcnt1_lt]
        have htail : (arr.take cnt).drop (i + 1) =
            (arr.take (cnt - 1)).drop (i + 1) ++ [arr[cnt - 1]] := by
          have hc : cnt = (cnt - 1) + 1 := by omega
          conv_lhs => rw [hc, List.take_succ]
          rw [List.getElem?_eq_getElem hcnt1_lt]
          rw [List.drop_append_eq_append_drop]
          have hz : i + 1 - (List.take (cnt - 1) arr).length = 0 := by
            rw [hAlen]; omega
          rw [hz]
          simp
        rw [hsetdrop] at ih
        rw [htail]
        exact ih.trans (List.Perm.append_left _
          (List.perm_append_singleton _ _).symm)
      · -- the removed entry is the last live one: nothing moves, count drops
        have heq : i = cnt - 1 := by omega
        have hsetdrop : ((arr.set i (arr.getD (cnt - 1) d)).take (cnt - 1)).drop i = [] := by
          apply List.drop_eq_nil_of_le
          simp [List.length_take]
          omega
        have htail : (arr.take cnt).drop (i + 1) = [] := by
          apply List.drop_eq_nil_of_le
          simp [List.length_take]
          omega
        rw [hsetdrop] at ih
        rw [htail]
        exact ih

/-- C3: the swap-remove culling loop applied to a whole array (as
`r3d_prepare_cull_drawcalls` does, from index `count - 1` downward)
produces a surviving multiset equal to the subset of entries whose
visibility test passes — no draw is duplicated or lost, order is not
preserved. -/
theorem cull_swap_remove_perm_filter {α : Type} (visible : α → Bool) (d : α)
    (arr : List α) :
    (r3d_cull_swap_remove visible d arr).Perm (arr.filter visible) := by
  have h := r3d_cull_swap_remove_loop_perm visible d arr.length arr arr.length
    le_rfl le_rfl
  unfold r3d_cull_swap_remove
  simpa [List.take_length, List.drop_length] using h

end R3DSpec

namespace R3DSpec

/-- A default draw call (the value of an uninitialized array slot; never
read by the culling loop under its in-range precondition). -/
def defaultDrawCall : r3d_drawcall_t :=
  { transform := identityMatrix, material := matOpaque,
    geometry := r3d_drawcall_geometry.model cubeMesh,
    renderMode := r3d_drawcall_render_mode.deferred, instanced := none }

/-- `r3d_prepare_cull_drawcalls` (lines 820-876): the swap-remove loop is
run over each of the four arrays, non-instanced arrays with the
per-geometry visibility test and instanced arrays with the aggregate-AABB
visibility test (both tests live outside the verified sources and are
passed as opaque predicates). -/
def r3d_prepare_cull_drawcalls
    (geomVisible instGeomVisible : r3d_drawcall_t → Bool)
    (c : DrawContainers) : DrawContainers :=
  { aDrawDeferred := r3d_cull_swap_remove geomVisible defaultDrawCall c.aDrawDeferred,
    aDrawForward := r3d_cull_swap_remove geomVisible defaultDrawCall c.aDrawForward,
    aDrawDeferredInst :=
      r3d_cull_swap_remove instGeomVisible defaultDrawCall c.aDrawDeferredInst,
    aDrawForwardInst :=
      r3d_cull_swap_remove instGeomVisible defaultDrawCall c.aDrawForwardInst }

/-- C3: for every frame's submitted draw arrays, the swap-remove culling
step produces in each of the four arrays a surviving multiset equal exactly
to the subset of entries whose visibility test passes — including when the
removed entry is the last live one — with no draw duplicated or lost. -/
theorem cull_drawcalls_preserves_visible_sets
    (geomVisible instGeomVisible : r3d_drawcall_t → Bool) (c : DrawContainers) :
    ((r3d_prepare_cull_drawcalls geomVisible instGeomVisible c).aDrawDeferred).Perm
      (c.aDrawDeferred.filter geomVisible) ∧
    ((r3d_prepare_cull_drawcalls geomVisible instGeomVisible c).aDrawForward).Perm
      (c.aDrawForward.filter geomVisible) ∧
    ((r3d_prepare_cull_drawcalls geomVisible instGeomVisible c).aDrawDeferredInst).Perm
      (c.aDrawDeferredInst.filter instGeomVisible) ∧
    ((r3d_prepare_cull_drawcalls geomVisible instGeomVisible c).aDrawForwardInst).Perm
      (c.aDrawForwardInst.filter instGeomVisible) :=
  ⟨cull_swap_remove_perm_filter _ _ _, cull_swap_remove_perm_filter _ _ _,
   cull_swap_remove_perm_filter _ _ _, cull_swap_remove_perm_filter _ _ _⟩

end R3DSpec

namespace R3DSpec

/-! ## C5: optional sorting of the draw arrays
(`r3d_core.c`, `r3d_prepare_sort_drawcalls`, lines 878-896, and
`r3d_drawcall.c`, `r3d_drawcall_compare_front_to_back` /
`r3d_drawcall_compare_back_to_front`, lines 841-883).

`qsort` is modelled by a comparison sort (Mathlib's insertion sort) driven
by the source comparators; the claims concern the comparator-sortedness of
the result, which is `qsort`'s contract. -/

/-- Squared distance from the camera position to a draw call's world-space
translation column (`transform.m12/m13/m14`), as computed by both
comparators via `Vector3DistanceSqr`. -/
def drawcallDistSqr (camPos : Vector3) (c : r3d_drawcall_t) : ℚ :=
  Vector3DistanceSqr camPos ⟨c.transform.m12, c.transform.m13, c.transform.m14⟩

/-- `r3d_drawcall_compare_front_to_back` (lines 841-861):
`(distA > distB) - (distA < distB)`. -/
def r3d_drawcall_compare_front_to_back (camPos : Vector3)
    (a b : r3d_drawcall_t) : Int :=
  (if drawcallDistSqr camPos a > drawcallDistSqr camPos b then (1 : Int) else 0) -
  (if drawcallDistSqr camPos a < drawcallDistSqr camPos b then (1 : Int) else 0)

/-- `r3d_drawcall_compare_back_to_front` (lines 863-883):
`(distA < distB) - (distA > distB)`. -/
def r3d_drawcall_compare_back_to_front (camPos : Vector3)
    (a b : r3d_drawcall_t) : Int :=
  (if drawcallDistSqr camPos a < drawcallDistSqr camPos b then (1 : Int) else 0) -
  (if drawcallDistSqr camPos a > drawcallDistSqr camPos b then (1 : Int) else 0)

/-- The front-to-back comparator reports "not after" exactly when the
squared camera distances are in weakly increasing order. -/
theorem compare_front_to_back_nonpos_iff (camPos : Vector3)
    (a b : r3d_drawcall_t) :
    r3d_drawcall_compare_front_to_back camPos a b ≤ 0 ↔
      drawcallDistSqr camPos a ≤ drawcallDistSqr camPos b := by
  unfold r3d_drawcall_compare_front_to_back
  rcases lt_trichotomy (drawcallDistSqr camPos a) (drawcallDistSqr camPos b)
    with h | h | h
  · rw [if_neg (not_lt.2 h.le), if_pos h]
    have h0 : ((0 : Int) - 1) ≤ 0 := by norm_num
    simp [h0, h.le]
  · rw [if_neg (not_lt.2 h.ge), if_neg (not_lt.2 h.le)]
    simp [h.le]
  · rw [if_pos h, if_neg (not_lt.2 h.le)]
    have h1 : ¬ ((1 : Int) - 0) ≤ 0 := by norm_num
    simp [h1, not_le.2 h]
  
/-- The back-to-front comparator reports "not after" exactly when the
squared camera distances are in weakly decreasing order. -/
theorem compare_back_to_front_nonpos_iff (camPos : Vector3)
    (a b : r3d_drawcall_t) :
    r3d_drawcall_compare_back_to_front camPos a b ≤ 0 ↔
      drawcallDistSqr camPos b ≤ drawcallDistSqr camPos a := by
  unfold r3d_drawcall_compare_back_to_front
  rcases lt_trichotomy (drawcallDistSqr camPos a) (drawcallDistSqr camPos b)
    with h | h | h
  · rw [if_pos h, if_neg (not_lt.2 h.le)]
    have h1 : ¬ ((1 : Int) - 0) ≤ 0 := by norm_num
    simp [h1, not_le.2 h]
  · rw [if_neg (not_lt.2 h.le), if_neg (not_lt.2 h.ge)]
    simp [h.ge]
  · rw [if_neg (not_lt.2 h.le), if_pos h]
    have h0 : ((0 : Int) - 1) ≤ 0 := by norm_num
    simp [h0, h.le]

/-- `r3d_drawcall_sort_front_to_back` (a `qsort` by the front-to-back
comparator), modelled as a comparison sort. -/
def r3d_drawcall_sort_front_to_back (camPos : Vector3)
    (calls : List r3d_drawcall_t) : List r3d_drawcall_t :=
  List.insertionSort
    (fun a b => r3d_drawcall_compare_front_to_back camPos a b ≤ 0) calls

/-- `r3d_drawcall_sort_back_to_front` (a `qsort` by the back-to-front
comparator), modelled as a comparison sort. -/
def r3d_drawcall_sort_back_to_front (camPos : Vector3)
    (calls : List r3d_drawcall_t) : List r3d_drawcall_t :=
  List.insertionSort
    (fun a b => r3d_drawcall_compare_back_to_front camPos a b ≤ 0) calls

/-- Sorting by the front-to-back comparator yields pairwise weakly
increasing squared camera distances. -/
theorem sort_front_to_back_pairwise (camPos : Vector3)
    (calls : List r3d_drawcall_t) :
    List.Pairwise
      (fun a b => drawcallDistSqr camPos a ≤ drawcallDistSqr camPos b)
      (r3d_drawcall_sort_front_to_back camPos calls) := by
  haveI : IsTotal r3d_drawcall_t
      (fun a b => r3d_drawcall_compare_front_to_back camPos a b ≤ 0) :=
    ⟨fun a b => by
      rw [compare_front_to_back_nonpos_iff, compare_front_to_back_nonpos_iff]
      exact le_total _ _⟩
  haveI : IsTrans r3d_drawcall_t
      (fun a b => r3d_drawcall_compare_front_to_back camPos a b ≤ 0) :=
    ⟨fun a b c hab hbc => by
      rw [compare_front_to_back_nonpos_iff] at hab hbc ⊢
      exact le_trans hab hbc⟩
  have hs := List.sorted_insertionSort
    (fun a b => r3d_drawcall_compare_front_to_back camPos a b ≤ 0) calls
  exact List.Pairwise.imp
    (fun hab => (compare_front_to_back_nonpos_iff camPos _ _).1 hab) hs

/-- Sorting by the back-to-front comparator yields pairwise weakly
decreasing squared camera distances. -/
theorem sort_back_to_front_pairwise (camPos : Vector3)
    (calls : List r3d_drawcall_t) :
    List.Pairwise
      (fun a b => drawcallDistSqr camPos b ≤ drawcallDistSqr camPos a)
      (r3d_drawcall_sort_back_to_front camPos calls) := by
  haveI : IsTotal r3d_drawcall_t
      (fun a b => r3d_drawcall_compare_back_to_front camPos a b ≤ 0) :=
    ⟨fun a b => by
      rw [compare_back_to_front_nonpos_iff, compare_back_to_front_nonpos_iff]
      exact le_total _ _⟩
  haveI : IsTrans r3d_drawcall_t
      (fun a b => r3d_drawcall_compare_back_to_front camPos a b ≤ 0) :=
    ⟨fun a b c hab hbc => by
      rw [compare_back_to_front_nonpos_iff] at hab hbc ⊢
      exact le_trans hbc hab⟩
  have hs := List.sorted_insertionSort
    (fun a b => r3d_drawcall_compare_back_to_front camPos a b ≤ 0) calls
  exact List.Pairwise.imp
    (fun hab => (compare_back_to_front_nonpos_iff camPos _ _).1 hab) hs

/-- `r3d_prepare_sort_drawcalls` (lines 878-896): front-to-back sort of the
deferred array when `R3D_FLAG_OPAQUE_SORTING` is set; back-to-front sort of
the forward array when `R3D_FLAG_TRANSPARENT_SORTING` is set. -/
def r3d_prepare_sort_drawcalls (flags : R3D_Flags) (camPos : Vector3)
    (c : DrawContainers) : DrawContainers :=
  { c with
    aDrawDeferred :=
      if flags.sortOpaque then
        r3d_drawcall_sort_front_to_back camPos c.aDrawDeferred
      else c.aDrawDeferred,
    aDrawForward :=
      if flags.transparentSorting then
        r3d_drawcall_sort_back_to_front camPos c.aDrawForward
      else c.aDrawForward }

/-- C5: when opaque front-to-back sorting is enabled, the sorted deferred
array has pairwise weakly increasing squared distances from the camera
position to each draw's translation column; when transparent sorting is
enabled, the sorted forward array satisfies the reversed (descending)
inequality. -/
theorem sort_drawcalls_distance_ordered (flags : R3D_Flags) (camPos : Vector3)
    (c : DrawContainers) :
    (flags.sortOpaque = true →
      List.Pairwise
        (fun a b => drawcallDistSqr camPos a ≤ drawcallDistSqr camPos b)
        ((r3d_prepare_sort_drawcalls flags camPos c).aDrawDeferred)) ∧
    (flags.transparentSorting = true →
      List.Pairwise
        (fun a b => drawcallDistSqr camPos b ≤ drawcallDistSqr camPos a)
        ((r3d_prepare_sort_drawcalls flags camPos c).aDrawForward)) := by
  constructor
  · intro h
    unfold r3d_prepare_sort_drawcalls
    rw [if_pos h]
    exact sort_front_to_back_pairwise camPos c.aDrawDeferred
  · intro h
    unfold r3d_prepare_sort_drawcalls
    rw [if_pos h]
    exact sort_back_to_front_pairwise camPos c.aDrawForward

/-- A draw call translated to `(5,0,0)` (farther from the origin camera). -/
def farDraw : r3d_drawcall_t :=
  { defaultDrawCall with transform := { identityMatrix with m12 := 5 } }

/-- A draw call translated to `(1,0,0)` (nearer to the origin camera). -/
def nearDraw : r3d_drawcall_t :=
  { defaultDrawCall with transform := { identityMatrix with m12 := 1 } }

/-- Flags with both sort toggles set. -/
def bothSortFlags : R3D_Flags :=
  { forceForward := false, sortOpaque := true,
    transparentSorting := true, fxaa := false }

/-- Containers holding two draws in each sortable array, deliberately out
of order for both sort directions. -/
def twoDrawContainers : DrawContainers :=
  { aDrawDeferred := [farDraw, nearDraw], aDrawForward := [nearDraw, farDraw],
    aDrawDeferredInst := [], aDrawForwardInst := [] }

/-- Witness for `sort_drawcalls_distance_ordered` at concrete inputs (both
sort flags enabled, two-element arrays). -/
theorem sort_drawcalls_distance_ordered_witness :
    List.Pairwise
      (fun a b => drawcallDistSqr ⟨0, 0, 0⟩ a ≤ drawcallDistSqr ⟨0, 0, 0⟩ b)
      ((r3d_prepare_sort_drawcalls bothSortFlags ⟨0, 0, 0⟩
        twoDrawContainers).aDrawDeferred) ∧
    List.Pairwise
      (fun a b => drawcallDistSqr ⟨0, 0, 0⟩ b ≤ drawcallDistSqr ⟨0, 0, 0⟩ a)
      ((r3d_prepare_sort_drawcalls bothSortFlags ⟨0, 0, 0⟩
        twoDrawContainers).aDrawForward) :=
  ⟨(sort_drawcalls_distance_ordered bothSortFlags ⟨0, 0, 0⟩ twoDrawContainers).1 rfl,
   (sort_drawcalls_distance_ordered bothSortFlags ⟨0, 0, 0⟩ twoDrawContainers).2 rfl⟩

end R3DSpec

namespace R3DSpec

/-! ## C6: shadow update cadence
(`r3d_core.c`: `r3d_prepare_process_lights_and_batch` lines 797-801 and
`r3d_pass_shadow_maps` lines 939-956).

The light helpers `r3d_light_process_shadow_update` and
`r3d_light_indicate_shadow_update` live in `details/r3d_light.c`, which is
not among the sources under verification; they are modelled from the spec
(§4.3): Continuous lights render every frame they are visible; Manual
lights only render when an external caller has set the should-update flag,
which the renderer itself only reads and clears (cleared immediately after
a render). -/

/-- `R3D_ShadowUpdateMode`: Continuous (render every visible frame) or
Manual (render only when externally marked dirty). -/
inductive R3D_ShadowUpdateMode
  | continuous
  | manual
deriving DecidableEq, Repr

/-- The per-light state read by the shadow cadence logic: the enabled flag,
the shadow-enabled flag, the `shoudlUpdate` flag (spelling as in the
source) and the update mode. -/
structure r3d_light_cadence_t where
  enabled : Bool
  shadowEnabled : Bool
  shoudlUpdate : Bool
  updateMode : R3D_ShadowUpdateMode
deriving DecidableEq, Repr

/-- Modelled from the spec: `r3d_light_process_shadow_update`
(`details/r3d_light.c`, not under the verified sources) — for a Continuous
light the should-update flag is raised every frame; for a Manual light the
renderer never sets the flag itself, so the state is unchanged. -/
def r3d_light_process_shadow_update (s : r3d_light_cadence_t) :
    r3d_light_cadence_t :=
  match s.updateMode with
  | R3D_ShadowUpdateMode.continuous => { s with shoudlUpdate := true }
  | R3D_ShadowUpdateMode.manual => s

/-- Modelled from the spec: `r3d_light_indicate_shadow_update`
(`details/r3d_light.c`, not under the verified sources) — the should-update
flag is cleared immediately after the shadow render. -/
def r3d_light_indicate_shadow_update (s : r3d_light_cadence_t) :
    r3d_light_cadence_t :=
  { s with shoudlUpdate := false }

/-- One `R3D_End` as observed by a single light's shadow map
(`r3d_core.c`): `r3d_prepare_process_lights_and_batch` calls
`r3d_light_process_shadow_update` for every valid enabled light with
shadows enabled (lines 797-801); the light enters the batch only if
enabled and visible; `r3d_pass_shadow_maps` (lines 939-947) then skips a
batched light whose shadows are disabled or whose `shoudlUpdate` flag is
clear, and otherwise calls `r3d_light_indicate_shadow_update` and renders.
Returns whether the shadow map was rendered this frame, and the new light
state. -/
def r3d_end_shadow_step (visible : Bool) (s : r3d_light_cadence_t) :
    Bool × r3d_light_cadence_t :=
  let s1 := if s.enabled && s.shadowEnabled then
    r3d_light_process_shadow_update s else s
  if s1.enabled && visible && s1.shadowEnabled then
    if s1.shoudlUpdate then (true, r3d_light_indicate_shadow_update s1)
    else (false, s1)
  else (false, s1)

/-- The external caller's dirty toggle between two `End()` calls (the
public API sets `shoudlUpdate`; `e = false` models "not set between"). -/
def externalShadowDirty (e : Bool) (s : r3d_light_cadence_t) :
    r3d_light_cadence_t :=
  if e then { s with shoudlUpdate := true } else s

/-- C6: for any enabled light with shadows enabled — if its update mode is
Manual and its shadow map was rendered at one `End()`, then it is rendered
again at the next `End()` only if the should-update flag was explicitly set
between the two calls; if its update mode is Continuous, its shadow map is
rendered at every `End()` in which the light is visible. -/
theorem shadow_update_cadence (s : r3d_light_cadence_t) (v1 v2 e : Bool)
    (hen : s.enabled = true) (hsh : s.shadowEnabled = true) :
    (s.updateMode = R3D_ShadowUpdateMode.manual →
      (r3d_end_shadow_step v1 s).1 = true →
      (r3d_end_shadow_step v2
        (externalShadowDirty e (r3d_end_shadow_step v1 s).2)).1 = true →
      e = true) ∧
    (s.updateMode = R3D_ShadowUpdateMode.continuous → v1 = true →
      (r3d_end_shadow_step v1 s).1 = true) := by
  obtain ⟨en, sh, fl, mode⟩ := s
  simp only at hen hsh
  subst hen hsh
  cases mode <;> revert fl v1 v2 e <;> decide

/-- Witness for `shadow_update_cadence`: a Manual light with the flag set,
rendered at the first `End()` and with the flag re-set in between, and the
Continuous instance at the same state shape. -/
theorem shadow_update_cadence_witness :
    (({ enabled := true, shadowEnabled := true, shoudlUpdate := true,
        updateMode := R3D_ShadowUpdateMode.manual } :
          r3d_light_cadence_t).updateMode = R3D_ShadowUpdateMode.manual →
      (r3d_end_shadow_step true
        { enabled := true, shadowEnabled := true, shoudlUpdate := true,
          updateMode := R3D_ShadowUpdateMode.manual }).1 = true →
      (r3d_end_shadow_step true
        (externalShadowDirty true
          (r3d_end_shadow_step true
            { enabled := true, shadowEnabled := true, shoudlUpdate := true,
              updateMode := R3D_ShadowUpdateMode.manual }).2)).1 = true →
      true = true) ∧
    (({ enabled := true, shadowEnabled := true, shoudlUpdate := true,
        updateMode := R3D_ShadowUpdateMode.manual } :
          r3d_light_cadence_t).updateMode = R3D_ShadowUpdateMode.continuous →
      true = true →
      (r3d_end_shadow_step true
        { enabled := true, shadowEnabled := true, shoudlUpdate := true,
          updateMode := R3D_ShadowUpdateMode.manual }).1 = true) :=
  shadow_update_cadence
    { enabled := true, shadowEnabled := true, shoudlUpdate := true,
      updateMode := R3D_ShadowUpdateMode.manual } true true true rfl rfl

end R3DSpec

namespace R3DSpec

/-! ## C7: the `Disabled` branch of the shadow-cast cull-mode switch is
unreachable (`r3d_drawcall.c`, `r3d_drawcall_apply_shadow_cast_mode`,
lines 719-741; `r3d_core.c`, `r3d_pass_shadow_maps`, lines 981-1081). -/

/-- The face-culling GL state selected by the shadow-cast switch. -/
inductive FaceCullSetting
  | noCulling
  | cullBackFaces
  | cullFrontFaces
deriving DecidableEq, Repr

/-- `r3d_drawcall_apply_shadow_cast_mode` (lines 719-741): `ALL_FACES`
disables culling, `FRONT_FACES` culls back faces, `BACK_FACES` culls front
faces; the `DISABLED`/default branch is
`assert("This shouldn't happen" && false)` and is modelled as `none`. -/
def r3d_drawcall_apply_shadow_cast_mode (mode : R3D_ShadowCastMode) :
    Option FaceCullSetting :=
  match mode with
  | R3D_ShadowCastMode.allFaces => some FaceCullSetting.noCulling
  | R3D_ShadowCastMode.frontFaces => some FaceCullSetting.cullBackFaces
  | R3D_ShadowCastMode.backFaces => some FaceCullSetting.cullFrontFaces
  | R3D_ShadowCastMode.disabled => none

/-- The shadow-cast modes of the draw calls that `r3d_pass_shadow_maps`
rasterizes for one light (or one cube face): each of the four arrays is
traversed and a draw is rasterized — reaching
`r3d_drawcall_apply_shadow_cast_mode` via the depth raster with
`shadow = true` — only under the call-site guard
`call->material.shadowCastMode != R3D_SHADOW_CAST_DISABLED`
(`r3d_core.c` lines 981-1081; every rasterization site carries the same
guard). -/
def r3d_pass_shadow_maps_reaching_modes (c : DrawContainers) :
    List R3D_ShadowCastMode :=
  ((c.aDrawDeferredInst ++ c.aDrawForwardInst ++
    c.aDrawDeferred ++ c.aDrawForward).filter
      (fun call => call.material.shadowCastMode ≠ R3D_ShadowCastMode.disabled)).map
    (fun call => call.material.shadowCastMode)

/-- C7: every draw call that reaches the shadow-cast cull-mode switch
during the shadow pass has a shadow-cast mode different from `Disabled`,
so the switch always selects a face-culling setting and the assertion in
the `Disabled`/default branch is unreachable. -/
theorem shadow_cast_disabled_unreachable (c : DrawContainers) :
    (r3d_pass_shadow_maps_reaching_modes c).all
      (fun mode => (r3d_drawcall_apply_shadow_cast_mode mode).isSome ∧
        mode ≠ R3D_ShadowCastMode.disabled) = true := by
  rw [List.all_eq_true]
  intro mode hmode
  unfold r3d_pass_shadow_maps_reaching_modes at hmode
  rcases List.mem_map.1 hmode with ⟨call, hcall, heq⟩
  rcases List.mem_filter.1 hcall with ⟨_hmem, hne⟩
  subst heq
  have hne' : call.material.shadowCastMode ≠ R3D_ShadowCastMode.disabled := by
    simpa using hne
  cases hmode2 : call.material.shadowCastMode
  · exact absurd hmode2 hne'
  all_goals simp [r3d_drawcall_apply_shadow_cast_mode, hmode2]

end R3DSpec

namespace R3DSpec

/-! ## C9: bloom mip-chain length
(`r3d_state.c`, `r3d_framebuffer_load_mipchain_bloom`, lines 853-897).

`(int)floor(log2((float)minDimension))` is modelled as `Nat.log2`. For
`1 ≤ minDimension < 2^24` the `int → float` conversion is exact and the
correctly rounded `log2` of a non-power-of-two cannot reach the next
integer, so the C expression and `Nat.log2` agree on every realizable
resolution; the theorem assumes `2 ≤ width` and `2 ≤ height` so the halved
minimum dimension is nonzero (matching the defined range of the C code). -/

/-- The clamping loop of `r3d_framebuffer_load_mipchain_bloom`
(lines 879-882): `for (; len < maxLen; len++) if ((minDim >> len) < 8)
break;`, with `r` the remaining iteration budget `maxLen - len`. -/
def bloomMipLoop (minDim : ℕ) : ℕ → ℕ → ℕ
  | 0, len => len
  | r + 1, len => if minDim >>> len < 8 then len else bloomMipLoop minDim r (len + 1)

/-- The number of bloom mip levels allocated for an internal resolution:
`width` and `height` are first halved (line 857), `minDimension` is the
smaller halved dimension, `maxMipChainLength = floor(log2(minDimension))`,
and the loop clamps the chain so no level drops below 8 pixels
(lines 871-890). -/
def r3d_framebuffer_load_mipchain_bloom_mipCount (width height : ℕ) : ℕ :=
  let w := width / 2
  let h := height / 2
  let minDimension := min w h
  let maxMipChainLength := Nat.log2 minDimension
  bloomMipLoop minDimension maxMipChainLength 0

/-- Characterization of the clamping loop: the result is at least the start
index, exceeds it by at most the budget, every index passed over kept the
shifted dimension at `≥ 8`, and if the budget was not exhausted the loop
stopped at an index where the shifted dimension dropped below 8. -/
theorem bloomMipLoop_spec (minDim : ℕ) :
    ∀ (r len : ℕ),
      len ≤ bloomMipLoop minDim r len ∧
      bloomMipLoop minDim r len ≤ len + r ∧
      (∀ k, len ≤ k → k < bloomMipLoop minDim r len → 8 ≤ minDim >>> k) ∧
      (bloomMipLoop minDim r len < len + r → minDim >>> (bloomMipLoop minDim r len) < 8)
  | 0, len => by
    refine ⟨le_rfl, by simp [bloomMipLoop], ?_, ?_⟩
    · intro k hk hk2
      simp [bloomMipLoop] at hk2
      omega
    · intro h
      simp [bloomMipLoop] at h
  | r + 1, len => by
    by_cases h : minDim >>> len < 8
    · refine ⟨?_, ?_, ?_, ?_⟩ <;> simp only [bloomMipLoop, if_pos h]
      · exact le_rfl
      · omega
      · intro k hk hk2; omega
      · intro _; exact h
    · have ih := bloomMipLoop_spec minDim r (len + 1)
      refine ⟨?_, ?_, ?_, ?_⟩ <;> simp only [bloomMipLoop, if_neg h]
      · omega
      · omega
      · intro k hk hk2
        rcases Nat.lt_or_ge k (len + 1) with hk3 | hk3
        · have hke : k = len := by omega
          subst hke
          exact Nat.le_of_not_lt h
        · exact ih.2.2.1 k hk3 hk2
      · intro hlt
        exact ih.2.2.2 (by omega)

/-- Halving commutes with the binary minimum of the two dimensions. -/
theorem min_halves (a b : ℕ) : min (a / 2) (b / 2) = min a b / 2 := by
  rcases le_total a b with h | h
  · rw [Nat.min_eq_left (Nat.div_le_div_right h), Nat.min_eq_left h]
  · rw [Nat.min_eq_right (Nat.div_le_div_right h), Nat.min_eq_right h]

/-- C9: for every internal resolution `(width, height)` (both at least 2),
the number of bloom mip levels allocated is at most
`floor(log2(min(width, height)))`, every allocated level `i` keeps the
smaller dimension of the (half-resolution-based) mip `≥ 8` pixels, and the
count is clamped no further than that: whenever it falls short of
`floor(log2(min(width, height)))`, one more level would drop below 8
pixels. -/
theorem bloom_mipchain_count_characterization (width height : ℕ)
    (hw : 2 ≤ width) (hh : 2 ≤ height) :
    r3d_framebuffer_load_mipchain_bloom_mipCount width height ≤
      Nat.log2 (min width height) ∧
    (∀ i < r3d_framebuffer_load_mipchain_bloom_mipCount width height,
      8 ≤ (min width height / 2) >>> i) ∧
    (r3d_framebuffer_load_mipchain_bloom_mipCount width height <
        Nat.log2 (min width height) →
      (min width height / 2) >>>
        (r3d_framebuffer_load_mipchain_bloom_mipCount width height) < 8) := by
  have hmin : min (width / 2) (height / 2) = min width height / 2 :=
    min_halves width height
  have hspec := bloomMipLoop_spec (min (width / 2) (height / 2))
    (Nat.log2 (min (width / 2) (height / 2))) 0
  have hNdef : r3d_framebuffer_load_mipchain_bloom_mipCount width height =
      bloomMipLoop (min (width / 2) (height / 2))
        (Nat.log2 (min (width / 2) (height / 2))) 0 := rfl
  have hlogle : Nat.log2 (min (width / 2) (height / 2)) ≤
      Nat.log2 (min width height) := by
    rw [Nat.log2_eq_log_two, Nat.log2_eq_log_two]
    exact Nat.log_mono_right (by rw [hmin]; exact Nat.div_le_self _ _)
  refine ⟨?_, ?_, ?_⟩
  · rw [hNdef]
    exact le_trans (by simpa using hspec.2.1) hlogle
  · intro i hi
    rw [hNdef] at hi
    rw [← hmin]
    exact hspec.2.2.1 i (Nat.zero_le i) hi
  · intro hlt
    rw [← hmin]
    rw [hNdef] at hlt ⊢
    rcases Nat.lt_or_ge (bloomMipLoop (min (width / 2) (height / 2))
        (Nat.log2 (min (width / 2) (height / 2))) 0)
        (Nat.log2 (min (width / 2) (height / 2))) with hc | hc
    · exact hspec.2.2.2 (by omega)
    · -- the loop exhausted its budget: the next shift is the leading bit
      have hN : bloomMipLoop (min (width / 2) (height / 2))
          (Nat.log2 (min (width / 2) (height / 2))) 0 =
          Nat.log2 (min (width / 2) (height / 2)) := by
        have := hspec.2.1
        omega
      rw [hN]
      rw [Nat.shiftRight_eq_div_pow]
      have hsmall : min (width / 2) (height / 2) <
          2 ^ (Nat.log2 (min (width / 2) (height / 2)) + 1) := Nat.lt_log2_self
      have : min (width / 2) (height / 2) /
          2 ^ Nat.log2 (min (width / 2) (height / 2)) < 2 := by
        apply Nat.div_lt_of_lt_mul
        calc min (width / 2) (height / 2) <
            2 ^ (Nat.log2 (min (width / 2) (height / 2)) + 1) := hsmall
          _ = 2 ^ Nat.log2 (min (width / 2) (height / 2)) * 2 := by ring
      omega
  
/-- Witness for `bloom_mipchain_count_characterization` at a 1920x1080
internal resolution (halved chain base 960x540, 7 levels, smallest mip 8
pixels in its smaller dimension). -/
theorem bloom_mipchain_count_characterization_witness :
    2 ≤ 1920 ∧ 2 ≤ 1080 ∧
    (r3d_framebuffer_load_mipchain_bloom_mipCount 1920 1080 ≤
      Nat.log2 (min 1920 1080) ∧
    (∀ i < r3d_framebuffer_load_mipchain_bloom_mipCount 1920 1080,
      8 ≤ (min 1920 1080 / 2) >>> i) ∧
    (r3d_framebuffer_load_mipchain_bloom_mipCount 1920 1080 <
        Nat.log2 (min 1920 1080) →
      (min 1920 1080 / 2) >>>
        (r3d_framebuffer_load_mipchain_bloom_mipCount 1920 1080) < 8)) :=
  ⟨by norm_num, by norm_num,
   bloom_mipchain_count_characterization 1920 1080 (by norm_num) (by norm_num)⟩

end R3DSpec
